import Mathlib

/-!
Shallow embedding of the LSPX-S2 Home Assistant integration's device
settings adapter:

* `Device.get_device_misc_settings` and `Device.set_device_misc_settings`
  from `custom_components/lspx_s2/songpal/__init__.py` (the fallback cache,
  its optimistic updates, and the HTTP round trips, whose network outcomes
  are modelled as explicit inputs);
* `LspxLight.async_update`, `async_turn_on`, `async_turn_off` from
  `custom_components/lspx_s2/light.py` (the parsing loop over the returned
  settings items and the change lists issued on turn-on / turn-off).

Python floats appear only in `max(1, int(255 * 0.01))` (a constant, equal
to 2) and in `round(brightness / 255 * 32)`; the latter is modelled with
exact rationals, which agrees with double precision for every integer
brightness in [0, 255] because `32*b/255` is never closer than `1/510` to a
half-integer while the float error is below `32 * 2 ^ -52`.
-/

namespace LspxS2

/-- A settings item as seen by the parsers: the `target` and `currentValue`
attributes of one entry of `result[0]`; `none` models a missing key /
Python `None`. -/
structure SettingItem where
  target : Option String
  currentValue : Option String
deriving DecidableEq

/-- One change dict (keys `target` / `value`) passed to
`set_device_misc_settings`. -/
structure SettingChange where
  target : Option String
  value : Option String
deriving DecidableEq

/-- The `Device` fallback cache: fields `_lighting_on_off`,
`_lighting_brightness`, `_led_fluctuation`.  `_lighting_brightness` is only
ever assigned through `str(...)`, hence a plain `String`; the other two are
assigned raw values that may be `None`. -/
structure FallbackState where
  lighting_on_off : Option String
  lighting_brightness : String
  led_fluctuation : Option String
deriving DecidableEq

/-- `Device.__init__` seeds the fallback cache with `"on"`, `"20"`, `"off"`. -/
def initialState : FallbackState :=
  { lighting_on_off := some "on", lighting_brightness := "20",
    led_fluctuation := some "off" }

/-- Python `str(value)` for `value` a string or `None`. -/
def pyStr : Option String → String
  | none => "None"
  | some s => s

/-- Value of a non-empty all-digit character list, `none` otherwise. -/
def digitsToNat (l : List Char) : Option Nat :=
  if l ≠ [] ∧ l.all Char.isDigit then
    some (l.foldl (fun acc c => acc * 10 + (c.toNat - 48)) 0)
  else none

/-- Python `int(s)` on an optional string: an optional sign followed by
digits parses; `int(None)` and non-numeric strings raise, modelled as
`none`. -/
def pyParseInt : Option String → Option Int
  | none => none
  | some s =>
    match s.data with
    | '-' :: rest => (digitsToNat rest).map (fun n => -(n : Int))
    | '+' :: rest => (digitsToNat rest).map (fun n => (n : Int))
    | l => (digitsToNat l).map (fun n => (n : Int))

/-- One step of the state-update loop inside
`Device.get_device_misc_settings` (keys `target` / `currentValue`). -/
def updateFromItem (st : FallbackState) (it : SettingItem) : FallbackState :=
  if it.target = some "lightingOnOff" then
    { st with lighting_on_off := it.currentValue }
  else if it.target = some "lightingBrightness" then
    { st with lighting_brightness := pyStr it.currentValue }
  else if it.target = some "ledFluctuationAdjustment" then
    { st with led_fluctuation := it.currentValue }
  else st

/-- One step of the optimistic-write loop inside
`Device.set_device_misc_settings` (keys `target` / `value`). -/
def applyChange (st : FallbackState) (c : SettingChange) : FallbackState :=
  if c.target = some "lightingOnOff" then
    { st with lighting_on_off := c.value }
  else if c.target = some "lightingBrightness" then
    { st with lighting_brightness := pyStr c.value }
  else if c.target = some "ledFluctuationAdjustment" then
    { st with led_fluctuation := c.value }
  else st

/-- The three-item structure built from the fallback cache: the
`SimpleNamespace(result=[[...]])` returned at the end of
`get_device_misc_settings` whenever the network path does not produce a
parsed item list. -/
def fallbackItems (st : FallbackState) : List SettingItem :=
  [{ target := some "lightingOnOff", currentValue := st.lighting_on_off },
   { target := some "lightingBrightness", currentValue := some st.lighting_brightness },
   { target := some "ledFluctuationAdjustment", currentValue := st.led_fluctuation }]

/-- Outcome of the HTTP round trip attempted by
`get_device_misc_settings`:
* `exn` — any exception (timeout, connection error, JSON decode failure),
  caught by the surrounding `except Exception`;
* `badStatus code` — a response with `resp.status = code ≠ 200`;
* `okNoResult` — status 200 but `"result"` missing from the body or falsy;
* `okItems items` — status 200 with `result[0]` a list of item dicts. -/
inductive FetchOutcome where
  | exn : FetchOutcome
  | badStatus : Nat → FetchOutcome
  | okNoResult : FetchOutcome
  | okItems : List SettingItem → FetchOutcome
deriving DecidableEq

/-- `Device.get_device_misc_settings`: on a parsed item list, fold each
known-target item into the fallback cache and echo the items back
(`result=[items]`); on every other outcome leave the cache untouched and
return the structure built from it.  The function catches every exception
internally, so it is total. -/
def get_device_misc_settings (st : FallbackState) (o : FetchOutcome) :
    FallbackState × List (List SettingItem) :=
  match o with
  | .okItems items => (items.foldl updateFromItem st, [items])
  | _ => (st, [fallbackItems st])

/-- Outcome of the POST inside `set_device_misc_settings`: `aiohttp`
unavailable (POST skipped), an exception (caught and logged), or an HTTP
response with the given status (logged when not 200). -/
inductive PostOutcome where
  | noAiohttp : PostOutcome
  | exn : PostOutcome
  | status : Nat → PostOutcome
deriving DecidableEq

/-- `Device.set_device_misc_settings`: folds every change into the fallback
cache in order (optimistic write), then attempts the POST; the POST outcome
is only logged, never re-raised, and the Python method returns `None` on
every path — the second component `none : Option Bool` models that absent
boolean result. -/
def set_device_misc_settings (st : FallbackState) (settings : List SettingChange)
    (post : PostOutcome) : FallbackState × Option Bool :=
  match post with
  | _ => (settings.foldl applyChange st, none)

/-- The `LspxLight` fields the claims are about: `_is_on`, `_brightness`,
`_available`. -/
structure LightState where
  is_on : Bool
  brightness : Int
  available : Bool
deriving DecidableEq

/-- Accumulator of the item loop in `async_update` (the two fields it
mutates while parsing). -/
structure ParseAcc where
  is_on : Bool
  brightness : Int
deriving DecidableEq

/-- The normalization in `async_update`: `int(cur) * 255 // 32`
(Python `//` is floor division, hence `Int.fdiv`). -/
def deviceToHaBrightness (n : Int) : Int := Int.fdiv (n * 255) 32

/-- The candle-mode brightness `max(1, int(255 * 0.01))`: the float
`255 * 0.01` truncates to `2`. -/
def candleBrightness : Int := max 1 2

/-- One iteration of the item loop of `async_update`: `lightingOnOff` sets
`is_on` to `cur == "on"`; `lightingBrightness` sets the normalized
brightness when `int(cur)` parses and is a no-op otherwise (the
`except: pass`); `ledFluctuationAdjustment` with value `"on"` forces
`is_on` and the candle brightness. -/
def parseItem (acc : ParseAcc) (it : SettingItem) : ParseAcc :=
  if it.target = some "lightingOnOff" then
    { acc with is_on := it.currentValue == some "on" }
  else if it.target = some "lightingBrightness" then
    match pyParseInt it.currentValue with
    | some n => { acc with brightness := deviceToHaBrightness n }
    | none => acc
  else if it.target = some "ledFluctuationAdjustment" then
    if it.currentValue = some "on" then
      { is_on := true, brightness := candleBrightness }
    else acc
  else acc

/-- Input to `async_update`: either the device call raised
`SongpalException`, or it returned data whose `.result` attribute is the
given list of item lists. -/
inductive UpdateInput where
  | songpalError : UpdateInput
  | data : List (List SettingItem) → UpdateInput
deriving DecidableEq

/-- `LspxLight.async_update`: on `SongpalException` only `_available` is
cleared; otherwise `_is_on` / `_brightness` are reset to `False` / `0`,
then, when `result` is non-empty, `result[0]` is folded through
`parseItem`, and `_available` is set. -/
def async_update (st : LightState) (inp : UpdateInput) : LightState :=
  match inp with
  | .songpalError => { st with available := false }
  | .data result =>
    match result with
    | [] => { is_on := false, brightness := 0, available := true }
    | items :: _ =>
      let acc := items.foldl parseItem { is_on := false, brightness := 0 }
      { is_on := acc.is_on, brightness := acc.brightness, available := true }

/-- Python `round` (round half to even) on an exact rational. -/
def pythonRound (q : ℚ) : ℤ :=
  if q - ⌊q⌋ < 1 / 2 then ⌊q⌋
  else if (1 : ℚ) / 2 < q - ⌊q⌋ then ⌊q⌋ + 1
  else if ⌊q⌋ % 2 = 0 then ⌊q⌋ else ⌊q⌋ + 1

/-- The device-scale brightness computed by `async_turn_on`:
`max(0, round(brightness / 255 * 32))`, on exact rationals (see the file
header for why this agrees with the float computation on [0, 255]). -/
def haToDeviceBrightness (b : Nat) : Int :=
  max 0 (pythonRound ((b : ℚ) / 255 * 32))

/-- The `set_device_misc_settings` calls issued by `async_turn_on`: with an
explicit brightness, two calls of one change each — `lightingBrightness`
to `str(max(0, round(b / 255 * 32)))`, then `ledFluctuationAdjustment` to
`"off"`; without brightness, one call setting `lightingOnOff` to `"on"`. -/
def turn_on_calls (brightness : Option Nat) : List (List SettingChange) :=
  match brightness with
  | some b =>
    [[{ target := some "lightingBrightness",
        value := some (toString (haToDeviceBrightness b)) }],
     [{ target := some "ledFluctuationAdjustment", value := some "off" }]]
  | none => [[{ target := some "lightingOnOff", value := some "on" }]]

/-- `LspxLight.async_turn_on`: issues the calls of `turn_on_calls` against
the device, then optimistically sets `_is_on` and, when brightness was
given, `_brightness`. -/
def async_turn_on (light : LightState) (st : FallbackState)
    (brightness : Option Nat) (post : PostOutcome) : LightState × FallbackState :=
  let st' := (turn_on_calls brightness).foldl
    (fun s call => (set_device_misc_settings s call post).1) st
  (match brightness with
   | some b => { light with is_on := true, brightness := (b : Int) }
   | none => { light with is_on := true }, st')

/-- The single change list issued by `async_turn_off`: candle mode off,
then lighting off, in one `set_device_misc_settings` call. -/
def turn_off_changes : List SettingChange :=
  [{ target := some "ledFluctuationAdjustment", value := some "off" },
   { target := some "lightingOnOff", value := some "off" }]

/-- `LspxLight.async_turn_off`: one device call with `turn_off_changes`,
then the optimistic `_is_on = False`. -/
def async_turn_off (light : LightState) (st : FallbackState)
    (post : PostOutcome) : LightState × FallbackState :=
  ({ light with is_on := false },
   (set_device_misc_settings st turn_off_changes post).1)

/-- The three target strings recognised by both parsing loops. -/
def knownTargets : List (Option String) :=
  [some "lightingOnOff", some "lightingBrightness", some "ledFluctuationAdjustment"]

end LspxS2

namespace LspxS2

/-! ### Helper lemmas -/

theorem parseItem_unknown (i : SettingItem) (h : i.target ∉ knownTargets)
    (acc : ParseAcc) : parseItem acc i = acc := by
  simp only [knownTargets, List.mem_cons, List.not_mem_nil, or_false, not_or] at h
  obtain ⟨h1, h2, h3⟩ := h
  unfold parseItem
  rw [if_neg h1, if_neg h2, if_neg h3]

theorem updateFromItem_unknown (i : SettingItem) (h : i.target ∉ knownTargets)
    (st : FallbackState) : updateFromItem st i = st := by
  simp only [knownTargets, List.mem_cons, List.not_mem_nil, or_false, not_or] at h
  obtain ⟨h1, h2, h3⟩ := h
  unfold updateFromItem
  rw [if_neg h1, if_neg h2, if_neg h3]

theorem foldl_skip {α β : Type} (f : α → β → α) (i : β) (hf : ∀ a, f a i = a)
    (xs ys : List β) (a : α) :
    (xs ++ i :: ys).foldl f a = (xs ++ ys).foldl f a := by
  rw [List.foldl_append, List.foldl_append, List.foldl_cons, hf]

theorem foldl_parseItem_unknown (items : List SettingItem)
    (h : ∀ i ∈ items, i.target ∉ knownTargets) :
    ∀ acc : ParseAcc, items.foldl parseItem acc = acc := by
  induction items with
  | nil => intro acc; rfl
  | cons a t ih =>
    intro acc
    rw [List.foldl_cons, parseItem_unknown a (h a (List.mem_cons_self a t)) acc]
    exact ih (fun i hi => h i (List.mem_cons_of_mem a hi)) acc

/-! ### C2 -/

/-- C2: on any failed fetch round trip — an exception (timeout, connection
error, malformed body), a non-200 status, or a 200 whose body lacks a
usable `result` — `get_device_misc_settings` leaves the fallback state
exactly as it was and returns the settings structure derived from it; being
a total function, it propagates no exception. -/
theorem fetch_failure_uses_cache (st : FallbackState) (c : Nat) (hc : c ≠ 200) :
    get_device_misc_settings st .exn = (st, [fallbackItems st])
    ∧ get_device_misc_settings st (.badStatus c) = (st, [fallbackItems st])
    ∧ get_device_misc_settings st .okNoResult = (st, [fallbackItems st]) :=
  ⟨rfl, rfl, rfl⟩

theorem fetch_failure_uses_cache_witness :
    (500 : Nat) ≠ 200
    ∧ (get_device_misc_settings initialState .exn
        = (initialState, [fallbackItems initialState])
      ∧ get_device_misc_settings initialState (.badStatus 500)
        = (initialState, [fallbackItems initialState])
      ∧ get_device_misc_settings initialState .okNoResult
        = (initialState, [fallbackItems initialState])) :=
  ⟨by decide, fetch_failure_uses_cache initialState 500 (by decide)⟩

/-! ### C7 -/

/-- C7 counterexample: on a failing POST (HTTP 500) the Python
`set_device_misc_settings` returns `None` — modelled as `none` — not the
boolean `False` the claim describes. -/
theorem apply_return_counterexample :
    (set_device_misc_settings initialState
      [{ target := some "lightingOnOff", value := some "off" }] (.status 500)).2
      ≠ some false := by
  decide

/-- C7 (amended): every change is folded into the fallback state
immediately and in the order given; the resulting state does not depend on
the POST outcome (so a failed POST reverts nothing), and the method returns
`None` — it has no boolean result — and never throws. -/
theorem apply_optimistic_no_revert (st : FallbackState)
    (settings : List SettingChange) (post post' : PostOutcome) :
    set_device_misc_settings st settings post = (settings.foldl applyChange st, none)
    ∧ (set_device_misc_settings st settings post).1
      = (set_device_misc_settings st settings post').1 :=
  ⟨rfl, rfl⟩

/-! ### C8 -/

/-- C8: an item whose target is none of the three known ones is ignored by
both parsing loops: inserting it anywhere in the response changes neither
the fallback state after `get_device_misc_settings` nor the snapshot
computed by `async_update`. -/
theorem unknown_target_ignored (st : FallbackState) (l : LightState)
    (xs ys : List SettingItem) (i : SettingItem) (h : i.target ∉ knownTargets) :
    (get_device_misc_settings st (.okItems (xs ++ i :: ys))).1
      = (get_device_misc_settings st (.okItems (xs ++ ys))).1
    ∧ async_update l (.data [xs ++ i :: ys]) = async_update l (.data [xs ++ ys]) := by
  constructor
  · exact foldl_skip updateFromItem i (updateFromItem_unknown i h) xs ys st
  · have hp : (xs ++ i :: ys).foldl parseItem { is_on := false, brightness := 0 }
        = (xs ++ ys).foldl parseItem { is_on := false, brightness := 0 } :=
      foldl_skip parseItem i (parseItem_unknown i h) xs ys _
    simp only [async_update]
    rw [hp]

theorem unknown_target_ignored_witness :
    ({ target := some "zoneSetting", currentValue := some "1" } : SettingItem).target
      ∉ knownTargets
    ∧ ((get_device_misc_settings initialState
        (.okItems ([{ target := some "lightingOnOff", currentValue := some "off" }]
          ++ { target := some "zoneSetting", currentValue := some "1" } :: []))).1
      = (get_device_misc_settings initialState
        (.okItems ([{ target := some "lightingOnOff", currentValue := some "off" }] ++ []))).1
    ∧ async_update { is_on := true, brightness := 159, available := true }
        (.data [[{ target := some "lightingOnOff", currentValue := some "off" }]
          ++ { target := some "zoneSetting", currentValue := some "1" } :: []])
      = async_update { is_on := true, brightness := 159, available := true }
        (.data [[{ target := some "lightingOnOff", currentValue := some "off" }] ++ []])) :=
  ⟨by decide,
   unknown_target_ignored initialState { is_on := true, brightness := 159, available := true }
     [{ target := some "lightingOnOff", currentValue := some "off" }] []
     { target := some "zoneSetting", currentValue := some "1" } (by decide)⟩

/-! ### C9 -/

/-- C9: a turn-on with explicit brightness only ever emits
`lightingBrightness` and `ledFluctuationAdjustment` changes — never
`lightingOnOff` — and the cached `_lighting_on_off` value is untouched by
the whole operation. -/
theorem turn_on_preserves_lighting_on_off (b : Nat) (l : LightState)
    (st : FallbackState) (post : PostOutcome) :
    (turn_on_calls (some b)).flatten.map SettingChange.target
      = [some "lightingBrightness", some "ledFluctuationAdjustment"]
    ∧ ((async_turn_on l st (some b) post).2).lighting_on_off = st.lighting_on_off :=
  ⟨rfl, rfl⟩

/-! ### C10 -/

/-- C10: `async_update` rebuilds the snapshot from scratch on every
successful fetch (the result does not depend on the previous snapshot), and
a successful response carrying none of the three known targets — or an
empty `result` — yields `isOn = false`, `brightness = 0`,
`available = true`. -/
theorem reset_then_parse (st st' : LightState) (r : List (List SettingItem))
    (items : List SettingItem) (rest : List (List SettingItem))
    (h : ∀ i ∈ items, i.target ∉ knownTargets) :
    async_update st (.data r) = async_update st' (.data r)
    ∧ async_update st (.data []) = { is_on := false, brightness := 0, available := true }
    ∧ async_update st (.data (items :: rest))
      = { is_on := false, brightness := 0, available := true } := by
  refine ⟨?_, rfl, ?_⟩
  · cases r <;> rfl
  · simp only [async_update]
    rw [foldl_parseItem_unknown items h]

theorem reset_then_parse_witness :
    (∀ i ∈ [({ target := some "zoneSetting", currentValue := some "on" } : SettingItem)],
      i.target ∉ knownTargets)
    ∧ (async_update { is_on := true, brightness := 159, available := false }
        (.data [[{ target := some "zoneSetting", currentValue := some "on" }]])
      = async_update { is_on := false, brightness := 7, available := true }
        (.data [[{ target := some "zoneSetting", currentValue := some "on" }]])
    ∧ async_update { is_on := true, brightness := 159, available := false } (.data [])
      = { is_on := false, brightness := 0, available := true }
    ∧ async_update { is_on := true, brightness := 159, available := false }
        (.data [[{ target := some "zoneSetting", currentValue := some "on" }]])
      = { is_on := false, brightness := 0, available := true }) :=
  ⟨by decide,
   reset_then_parse { is_on := true, brightness := 159, available := false }
     { is_on := false, brightness := 7, available := true }
     [[{ target := some "zoneSetting", currentValue := some "on" }]]
     [{ target := some "zoneSetting", currentValue := some "on" }] [] (by decide)⟩

end LspxS2

namespace LspxS2

/-! ### Parsing-step lemmas -/

theorem parseItem_onOff (acc : ParseAcc) (v : Option String) :
    parseItem acc { target := some "lightingOnOff", currentValue := v }
      = { acc with is_on := v == some "on" } := rfl

theorem parseItem_lb_is_on (acc : ParseAcc) (v : Option String) :
    (parseItem acc { target := some "lightingBrightness", currentValue := v }).is_on
      = acc.is_on := by
  cases hv : pyParseInt v <;> simp [parseItem, hv]

theorem parseItem_candle (acc : ParseAcc) (v : Option String) :
    parseItem acc { target := some "ledFluctuationAdjustment", currentValue := v }
      = if v = some "on" then { is_on := true, brightness := candleBrightness }
        else acc := by
  simp [parseItem]

/-- The `isOn` derived by parsing the three echoed fallback items: lighting
on or candle mode on. -/
theorem parse_fallback_is_on (st : FallbackState) (acc : ParseAcc) :
    ((fallbackItems st).foldl parseItem acc).is_on
      = ((st.lighting_on_off == some "on") || (st.led_fluctuation == some "on")) := by
  simp only [fallbackItems, List.foldl_cons, List.foldl_nil]
  rw [parseItem_onOff, parseItem_candle]
  by_cases hf : st.led_fluctuation = some "on"
  · rw [if_pos hf, hf]
    simp
  · rw [if_neg hf, parseItem_lb_is_on]
    rw [beq_eq_false_iff_ne.mpr hf, Bool.or_false]

/-! ### C1 -/

theorem parseItem_preserves_candle (i : SettingItem)
    (h1 : i.target ≠ some "lightingOnOff") (h2 : i.target ≠ some "lightingBrightness") :
    parseItem { is_on := true, brightness := candleBrightness } i
      = { is_on := true, brightness := candleBrightness } := by
  unfold parseItem
  rw [if_neg h1, if_neg h2]
  split
  · split <;> rfl
  · rfl

theorem foldl_parseItem_candle (ys : List SettingItem)
    (h : ∀ i ∈ ys, i.target ≠ some "lightingOnOff" ∧ i.target ≠ some "lightingBrightness") :
    ys.foldl parseItem { is_on := true, brightness := candleBrightness }
      = { is_on := true, brightness := candleBrightness } := by
  induction ys with
  | nil => rfl
  | cons a t ih =>
    rw [List.foldl_cons,
      parseItem_preserves_candle a (h a (List.mem_cons_self a t)).1
        (h a (List.mem_cons_self a t)).2]
    exact ih (fun i hi => h i (List.mem_cons_of_mem a hi))

/-- C1 counterexample: with the candle item first and a `lightingOnOff=off`
item after it, the loop's later assignment wins and the snapshot reports
`isOn = false` — the claim's order-independence fails. -/
theorem candle_order_counterexample :
    ¬ ((async_update { is_on := false, brightness := 0, available := false }
        (.data [[{ target := some "ledFluctuationAdjustment", currentValue := some "on" },
                  { target := some "lightingOnOff", currentValue := some "off" }]])).is_on = true
      ∧ (async_update { is_on := false, brightness := 0, available := false }
        (.data [[{ target := some "ledFluctuationAdjustment", currentValue := some "on" },
                  { target := some "lightingOnOff", currentValue := some "off" }]])).brightness = 2) := by
  decide

/-- C1 (amended): whenever the parsed items contain a
`ledFluctuationAdjustment` item with value `"on"` and no `lightingOnOff` or
`lightingBrightness` item occurs after it, the snapshot has `isOn = true`
and `brightness = 2`, whatever the values of any earlier items. -/
theorem candle_mode_snapshot (st : LightState) (xs ys : List SettingItem)
    (rest : List (List SettingItem))
    (h : ∀ i ∈ ys, i.target ≠ some "lightingOnOff" ∧ i.target ≠ some "lightingBrightness") :
    (async_update st (.data ((xs ++
        { target := some "ledFluctuationAdjustment", currentValue := some "on" } :: ys)
        :: rest))).is_on = true
    ∧ (async_update st (.data ((xs ++
        { target := some "ledFluctuationAdjustment", currentValue := some "on" } :: ys)
        :: rest))).brightness = 2 := by
  have key : (xs ++
      { target := some "ledFluctuationAdjustment", currentValue := some "on" } :: ys).foldl
        parseItem { is_on := false, brightness := 0 }
      = { is_on := true, brightness := candleBrightness } := by
    rw [List.foldl_append, List.foldl_cons, parseItem_candle, if_pos rfl]
    exact foldl_parseItem_candle ys h
  constructor
  · simp only [async_update]
    rw [key]
  · simp only [async_update]
    rw [key]
    decide

theorem candle_mode_snapshot_witness :
    (∀ i ∈ ([] : List SettingItem),
      i.target ≠ some "lightingOnOff" ∧ i.target ≠ some "lightingBrightness")
    ∧ ((async_update { is_on := false, brightness := 0, available := false }
        (.data (([{ target := some "lightingOnOff", currentValue := some "off" },
                   { target := some "lightingBrightness", currentValue := some "5" }] ++
          { target := some "ledFluctuationAdjustment", currentValue := some "on" } :: [])
          :: []))).is_on = true
      ∧ (async_update { is_on := false, brightness := 0, available := false }
        (.data (([{ target := some "lightingOnOff", currentValue := some "off" },
                   { target := some "lightingBrightness", currentValue := some "5" }] ++
          { target := some "ledFluctuationAdjustment", currentValue := some "on" } :: [])
          :: []))).brightness = 2) :=
  ⟨by decide,
   candle_mode_snapshot { is_on := false, brightness := 0, available := false }
     [{ target := some "lightingOnOff", currentValue := some "off" },
      { target := some "lightingBrightness", currentValue := some "5" }] [] []
     (by decide)⟩

/-! ### C3 -/

/-- C3 counterexample: a fetch whose `lightingBrightness` value `"abc"`
does not parse overwrites the cached string with `"abc"` and yields a
snapshot brightness of `0` (the reset default), not the pre-call `159`. -/
theorem brightness_parse_counterexample :
    ¬ (((get_device_misc_settings initialState
        (.okItems [{ target := some "lightingBrightness", currentValue := some "abc" }])).1).lighting_brightness
        = initialState.lighting_brightness
      ∧ (async_update { is_on := true, brightness := 159, available := true }
          (.data (get_device_misc_settings initialState
            (.okItems [{ target := some "lightingBrightness", currentValue := some "abc" }])).2)).brightness
        = 159) := by
  decide

/-- C3 (amended): a `lightingBrightness` value that does not parse as an
integer raises nothing: the parsing step leaves the accumulator exactly as
it was, so — brightness having been reset to `0` at the start of the
update — a response whose only item is the unparseable brightness yields
snapshot brightness `0` (not the pre-call value); the device-level cache
meanwhile overwrites `_lighting_brightness` with `str(value)`. -/
theorem brightness_parse_failure (acc : ParseAcc) (st : FallbackState)
    (l : LightState) (v : Option String) (h : pyParseInt v = none) :
    parseItem acc { target := some "lightingBrightness", currentValue := v } = acc
    ∧ (updateFromItem st { target := some "lightingBrightness", currentValue := v }).lighting_brightness
      = pyStr v
    ∧ (async_update l
        (.data [[{ target := some "lightingBrightness", currentValue := v }]])).brightness = 0 := by
  have hitem : ∀ a : ParseAcc,
      parseItem a { target := some "lightingBrightness", currentValue := v } = a := by
    intro a
    simp [parseItem, h]
  refine ⟨hitem acc, ?_, ?_⟩
  · simp [updateFromItem]
  · simp only [async_update, List.foldl_cons, List.foldl_nil]
    rw [hitem]

theorem brightness_parse_failure_witness :
    pyParseInt (some "abc") = none
    ∧ (parseItem { is_on := true, brightness := 5 }
        { target := some "lightingBrightness", currentValue := some "abc" }
        = { is_on := true, brightness := 5 }
      ∧ (updateFromItem initialState
          { target := some "lightingBrightness", currentValue := some "abc" }).lighting_brightness
        = pyStr (some "abc")
      ∧ (async_update { is_on := true, brightness := 159, available := true }
          (.data [[{ target := some "lightingBrightness", currentValue := some "abc" }]])).brightness
        = 0) :=
  ⟨by decide,
   brightness_parse_failure { is_on := true, brightness := 5 } initialState
     { is_on := true, brightness := 159, available := true } (some "abc") (by decide)⟩

/-! ### C5 -/

/-- C5: `async_turn_off` issues, in one `set_device_misc_settings` call,
exactly the two changes `ledFluctuationAdjustment = "off"` then
`lightingOnOff = "off"`; afterwards both cached values are `"off"`, and a
fetch against a device echoing the applied state parses to `isOn = false`,
whatever the state was before. -/
theorem turn_off_behavior (l l' : LightState) (st : FallbackState) (post : PostOutcome) :
    turn_off_changes =
      [{ target := some "ledFluctuationAdjustment", value := some "off" },
       { target := some "lightingOnOff", value := some "off" }]
    ∧ ((async_turn_off l st post).2).led_fluctuation = some "off"
    ∧ ((async_turn_off l st post).2).lighting_on_off = some "off"
    ∧ (async_update l' (.data (get_device_misc_settings (async_turn_off l st post).2
        (.okItems (fallbackItems (async_turn_off l st post).2))).2)).is_on = false := by
  refine ⟨rfl, rfl, rfl, ?_⟩
  exact (parse_fallback_is_on ((async_turn_off l st post).2)
    { is_on := false, brightness := 0 }).trans rfl

end LspxS2

namespace LspxS2

/-! ### Rounding lemmas -/

/-- `pythonRound` agrees with the nearest integer when the value is not at
a tie. -/
theorem pythonRound_eq (q : ℚ) (z : ℤ) (hlo : (z : ℚ) - 1 / 2 < q)
    (hhi : q < (z : ℚ) + 1 / 2) : pythonRound q = z := by
  rcases le_or_lt (z : ℚ) q with h | h
  · have hf : ⌊q⌋ = z := Int.floor_eq_iff.mpr ⟨h, by linarith⟩
    have hc1 : q - (z : ℚ) < 1 / 2 := by linarith
    unfold pythonRound
    rw [hf, if_pos hc1]
  · have hf : ⌊q⌋ = z - 1 :=
      Int.floor_eq_iff.mpr ⟨by push_cast; linarith, by push_cast; linarith⟩
    have hc1 : ¬ (q - ((z - 1 : ℤ) : ℚ) < 1 / 2) := by push_cast; linarith
    have hc2 : 1 / 2 < q - ((z - 1 : ℤ) : ℚ) := by push_cast; linarith
    unfold pythonRound
    rw [hf, if_neg hc1, if_pos hc2]
    omega

theorem haToDeviceBrightness_eq (b : Nat) (z : ℤ) (hz : 0 ≤ z)
    (hlo : (z : ℚ) - 1 / 2 < (b : ℚ) / 255 * 32)
    (hhi : (b : ℚ) / 255 * 32 < (z : ℚ) + 1 / 2) :
    haToDeviceBrightness b = z := by
  unfold haToDeviceBrightness
  rw [pythonRound_eq ((b : ℚ) / 255 * 32) z hlo hhi]
  exact max_eq_right hz

/-- Mapping a device brightness `d` to the normalized scale and back gives
`d` exactly: `32 * (d*255/32) / 255` lies in `(d - 1/2, d]`. -/
theorem roundTrip_exact (d : Nat) : haToDeviceBrightness (d * 255 / 32) = (d : ℤ) := by
  obtain ⟨m, hm32, hsum⟩ : ∃ m : ℕ, m < 32 ∧ 32 * (d * 255 / 32) + m = d * 255 :=
    ⟨(d * 255) % 32, Nat.mod_lt _ (by norm_num), Nat.div_add_mod (d * 255) 32⟩
  have hq : 32 * ((d * 255 / 32 : ℕ) : ℚ) + (m : ℚ) = (d : ℚ) * 255 := by
    exact_mod_cast hsum
  have hm : (m : ℚ) < 32 := by exact_mod_cast hm32
  have hm0 : (0 : ℚ) ≤ (m : ℚ) := by positivity
  apply haToDeviceBrightness_eq
  · positivity
  · rw [div_mul_eq_mul_div, lt_div_iff₀ (by norm_num : (0 : ℚ) < 255)]
    push_cast
    linarith
  · rw [div_mul_eq_mul_div, div_lt_iff₀ (by norm_num : (0 : ℚ) < 255)]
    push_cast
    linarith

/-- On any returned data, `async_update` rebuilds the snapshot from the
reset defaults, so the result does not depend on the previous snapshot. -/
theorem async_update_data_indep (st st' : LightState) (r : List (List SettingItem)) :
    async_update st (.data r) = async_update st' (.data r) := by
  cases r <;> rfl

/-! ### C4 -/

/-- C4: for every device brightness `d ∈ [0, 32]`, the fetch normalization
is `(d * 255) // 32`, and mapping the normalized value back to the device
scale with the turn-on formula `max(0, round(b / 255 * 32))` lands within
±1 of `d` (in fact exactly on `d`). -/
theorem brightness_round_trip (d : Nat) (hd : d ≤ 32) :
    deviceToHaBrightness (d : Int) = Int.fdiv ((d : Int) * 255) 32
    ∧ (haToDeviceBrightness
        (Int.toNat (deviceToHaBrightness (d : Int))) - (d : Int)).natAbs ≤ 1 := by
  have hcast : deviceToHaBrightness (d : Int) = ((d * 255 / 32 : ℕ) : ℤ) := by
    unfold deviceToHaBrightness
    rw [Int.ofNat_fdiv]
    norm_cast
  refine ⟨rfl, ?_⟩
  rw [hcast, Int.toNat_ofNat, roundTrip_exact d, sub_self]
  decide

theorem brightness_round_trip_witness :
    (7 : Nat) ≤ 32
    ∧ (deviceToHaBrightness ((7 : Nat) : Int) = Int.fdiv (((7 : Nat) : Int) * 255) 32
      ∧ (haToDeviceBrightness
          (Int.toNat (deviceToHaBrightness ((7 : Nat) : Int))) - ((7 : Nat) : Int)).natAbs ≤ 1) :=
  ⟨by decide, brightness_round_trip 7 (by decide)⟩

/-! ### C6 -/

/-- C6: turn-on with explicit brightness `b` emits exactly two changes —
`lightingBrightness = str(max(0, round(b/255*32)))`, then
`ledFluctuationAdjustment = "off"` — and turn-on without brightness emits
the single change `lightingOnOff = "on"`.  With `b = 255` from the
freshly-seeded device state the brightness change is `"32"`, and a fetch
against a device echoing the applied state parses back to
`brightness = 255` and `isOn = true`. -/
theorem turn_on_emissions (b : Nat) (l l' : LightState) (post : PostOutcome) :
    turn_on_calls (some b) =
      [[{ target := some "lightingBrightness",
          value := some (toString (haToDeviceBrightness b)) }],
       [{ target := some "ledFluctuationAdjustment", value := some "off" }]]
    ∧ turn_on_calls none = [[{ target := some "lightingOnOff", value := some "on" }]]
    ∧ turn_on_calls (some 255) =
      [[{ target := some "lightingBrightness", value := some "32" }],
       [{ target := some "ledFluctuationAdjustment", value := some "off" }]]
    ∧ (async_update l' (.data (get_device_misc_settings
        (async_turn_on l initialState (some 255) post).2
        (.okItems (fallbackItems
          (async_turn_on l initialState (some 255) post).2))).2)).brightness = 255
    ∧ (async_update l' (.data (get_device_misc_settings
        (async_turn_on l initialState (some 255) post).2
        (.okItems (fallbackItems
          (async_turn_on l initialState (some 255) post).2))).2)).is_on = true := by
  have h32 : haToDeviceBrightness 255 = 32 :=
    haToDeviceBrightness_eq 255 32 (by norm_num) (by norm_num) (by norm_num)
  have hst : (async_turn_on l initialState (some 255) post).2
      = { lighting_on_off := some "on", lighting_brightness := "32",
          led_fluctuation := some "off" } := by
    show applyChange (applyChange initialState
        { target := some "lightingBrightness",
          value := some (toString (haToDeviceBrightness 255)) })
        { target := some "ledFluctuationAdjustment", value := some "off" } = _
    rw [h32]
    decide
  refine ⟨rfl, rfl, ?_, ?_, ?_⟩
  · simp only [turn_on_calls]
    rw [h32]
    decide
  · rw [hst,
      async_update_data_indep l' { is_on := false, brightness := 0, available := false }]
    decide
  · rw [hst,
      async_update_data_indep l' { is_on := false, brightness := 0, available := false }]
    decide

end LspxS2
